import Mathlib

/-!
Verification development for the go-roomba protocol engine.

Shallow embedding of the library's protocol engine: the sensor-packet
length registry, the big-endian value encoder (Pack), the Drive command
validation, the synchronous sensor read loops (Sensors, QueryList), and
the streaming frame reader (ReadStream / Stream / PauseStream).

Bytes are modelled as Nat with explicit reduction mod 256 wherever the
source performs byte (mod-256) arithmetic.  The serial transport is
modelled as an explicit script: a list of results that successive Read
calls return.  Process-aborting log.Fatalf calls are modelled as a
dedicated outcome constructor (the Go function never returns normally
from them, since log.Fatalf exits the process).
-/

namespace GoRoomba

/-- The sensor packet length registry, SENSOR_PACKET_LENGTH, translated
entry for entry (and in listing order) from the Go map literal in
constants/constants.go.  Keys are sensor packet codes, values are the
packet length in bytes. -/
def SENSOR_PACKET_LENGTH : List (Nat × Nat) :=
  [(7, 1), (8, 1), (9, 1), (10, 1), (11, 1), (12, 1), (13, 1), (14, 1),
   (15, 1), (16, 1), (17, 1), (18, 1), (19, 2), (20, 2), (21, 1), (22, 2),
   (23, 2), (24, 1), (25, 2), (26, 2), (27, 2), (28, 2), (29, 2), (30, 2),
   (31, 2), (32, 1), (33, 2), (34, 1), (35, 1), (36, 1), (37, 1), (38, 1),
   (39, 2), (40, 2), (41, 2), (42, 2),
   (0, 26), (1, 10), (2, 6), (3, 10), (4, 14), (5, 12), (6, 52)]

/-- Association-list lookup; models the Go map access
`SENSOR_PACKET_LENGTH[packetId]` (keys in the literal are unique). -/
def lookupLen : List (Nat × Nat) → Nat → Option Nat
  | [], _ => none
  | (k, v) :: rest, c => if c = k then some v else lookupLen rest c

/-- Length lookup for a sensor packet code: `some len` if registered. -/
def lengthOf (c : Nat) : Option Nat := lookupLen SENSOR_PACKET_LENGTH c

/-- A typed integer handed to Pack, tagged with its wire width and
signedness, as accepted by binary.Write in serial.go. -/
inductive PackVal where
  | u8 (v : Nat)
  | i8 (v : Int)
  | u16 (v : Nat)
  | i16 (v : Int)
deriving DecidableEq

/-- Big-endian byte encoding of one typed value, as binary.Write with
binary.BigEndian produces (two's complement for signed values). -/
def packBytes : PackVal → List Nat
  | PackVal.u8 v => [v % 256]
  | PackVal.i8 v => [(v % 256).toNat]
  | PackVal.u16 v => [v / 256 % 256, v % 256]
  | PackVal.i16 v => [(v % 65536).toNat / 256, (v % 65536).toNat % 256]

/-- Pack (serial.go): folds over the data, appending each value's
big-endian encoding to the output buffer. -/
def Pack (data : List PackVal) : List Nat :=
  data.foldl (fun acc v => acc ++ packBytes v) []

/-- Roomba.Write (serial.go): writes the opcode byte, then the payload
bytes.  The value is the byte sequence that reaches the transport. -/
def WriteBytes (opcode : Nat) (p : List Nat) : List Nat :=
  opcode % 256 :: p

/-- Outcome of a validated command such as Drive: either a validation
error (nothing written) or the bytes written to the transport. -/
inductive CmdOut where
  | invalidVelocity
  | invalidRadius
  | wrote (bytesOut : List Nat)
deriving DecidableEq

/-- Drive (roomba.go lines 111-119): validates velocity against
[-500, 500] and radius against [-2000, 2000], then writes opcode 137
followed by Pack of the two int16 arguments. -/
def DriveModel (velocity radius : Int) : CmdOut :=
  if ¬(-500 ≤ velocity ∧ velocity ≤ 500) then CmdOut.invalidVelocity
  else if ¬(-2000 ≤ radius ∧ radius ≤ 2000) then CmdOut.invalidRadius
  else CmdOut.wrote (WriteBytes 137 (Pack [PackVal.i16 velocity, PackVal.i16 radius]))

/-- Result of one transport Read call during a synchronous query:
the delivered bytes, and whether the call also reported an error
(Sensors and QueryList treat any error as terminal). -/
inductive RRead where
  | ok (bs : List Nat)
  | fail (bs : List Nat)
deriving DecidableEq

/-- Outcome of the accumulate-until-full read loop shared by Sensors
and QueryList: completed buffer, read error (partial buffer kept), or
the transport script ran out while more bytes were still needed. -/
inductive EntryOut where
  | done (buf : List Nat)
  | readErr (buf : List Nat)
  | blocked (buf : List Nat)
deriving DecidableEq

/-- Writing `src` into `dest` starting at offset `off`, as a Go Read
into the slice view `dest[off:]` does. -/
def writeAt (dest : List Nat) (off : Nat) (src : List Nat) : List Nat :=
  dest.take off ++ src ++ dest.drop (off + src.length)

/-- The read loop of Sensors (roomba.go lines 175-183) and of each
QueryList entry (lines 212-219), translated exactly: the loop runs
while `byte(n) < bytesToRead`, where `n` is the byte count of the
previous Read and `bytesToRead` is decremented by `byte(n)` each
iteration (byte arithmetic, mod 256); each Read targets the slice view
`result[n:]`, i.e. offset `n`, the size of the previous read. -/
def entryLoop (result : List Nat) (n btr : Nat) : List RRead → EntryOut × List RRead
  | [] =>
    if n % 256 < btr % 256 then (EntryOut.blocked result, [])
    else (EntryOut.done result, [])
  | r :: rest =>
    if n % 256 < btr % 256 then
      match r with
      | RRead.ok bs =>
        let d := bs.take (result.length - n)
        entryLoop (writeAt result n d) d.length ((btr + 256 - n % 256) % 256) rest
      | RRead.fail bs =>
        let d := bs.take (result.length - n)
        (EntryOut.readErr (writeAt result n d), rest)
    else (EntryOut.done result, r :: rest)

/-- Outcome of the Sensors command. -/
inductive SensorsOut where
  | unknownCode
  | ok (buf : List Nat)
  | readErr (buf : List Nat)
  | blocked (buf : List Nat)
deriving DecidableEq

/-- Sensors (roomba.go lines 165-185): looks the code up in the
registry (unknown code fails before any write), writes the request
(the Write call's error value is discarded by the source), then runs
the accumulate loop over a zeroed buffer of the registered length. -/
def SensorsModel (packetId : Nat) (writeOk : Bool) (reads : List RRead) : SensorsOut :=
  match lengthOf packetId with
  | none => SensorsOut.unknownCode
  | some btr =>
    match entryLoop (List.replicate btr 0) 0 btr reads with
    | (EntryOut.done buf, _) => SensorsOut.ok buf
    | (EntryOut.readErr buf, _) => SensorsOut.readErr buf
    | (EntryOut.blocked buf, _) => SensorsOut.blocked buf

/-- Outcome of the QueryList command. -/
inductive QLOut where
  | unknownCode
  | ok (res : List (List Nat))
  | readErr (res : List (List Nat))
  | blocked (res : List (List Nat))
deriving DecidableEq

/-- The per-entry read phase of QueryList (roomba.go lines 207-220):
each requested code's payload is read in order with the shared
accumulate loop; on a read error the entries decoded so far are kept
and the remaining slots stay empty (nil in the source). -/
def qlLoop : List Nat → List RRead → QLOut
  | [], _ => QLOut.ok []
  | id :: rest, reads =>
    let btr := (lengthOf id).getD 0
    match entryLoop (List.replicate btr 0) 0 btr reads with
    | (EntryOut.done buf, reads') =>
      match qlLoop rest reads' with
      | QLOut.ok bufs => QLOut.ok (buf :: bufs)
      | QLOut.readErr bufs => QLOut.readErr (buf :: bufs)
      | QLOut.blocked bufs => QLOut.blocked (buf :: bufs)
      | QLOut.unknownCode => QLOut.unknownCode
    | (EntryOut.readErr buf, _) => QLOut.readErr (buf :: rest.map (fun _ => []))
    | (EntryOut.blocked buf, _) => QLOut.blocked (buf :: rest.map (fun _ => []))

/-- QueryList (roomba.go lines 190-222): validates every code against
the registry before writing anything, writes the request (the Write
call's error value is discarded by the source), then reads each
entry's payload in request order. -/
def QueryListModel (ids : List Nat) (writeOk : Bool) (reads : List RRead) : QLOut :=
  if ids.all (fun i => (lengthOf i).isSome) then qlLoop ids reads
  else QLOut.unknownCode

/-- Result of one transport Read call inside the streaming loop:
bytes plus either no error, io.EOF, or some other error. -/
inductive SReadEv where
  | ok (bs : List Nat)
  | eof (bs : List Nat)
  | err (bs : List Nat)
deriving DecidableEq

/-- Outcome of the frame-accumulation loop of ReadStream. -/
inductive AccOut where
  | filled (buf : List Nat)
  | eofRet
  | retry (buf : List Nat)
  | blocked
deriving DecidableEq

/-- The frame-accumulation loop of ReadStream (roomba.go lines
254-266): reads into `buf[bytesRead:]` until the buffer is full; a
non-zero read count is added to `bytesRead` before the error check; on
io.EOF the goroutine returns; on any other error it jumps back to the
select (goto Loop), keeping the buffer contents written so far but
abandoning the accumulation counter. -/
def accumFrame (buf : List Nat) (bytesRead : Nat) : List SReadEv → AccOut × List SReadEv
  | [] =>
    if bytesRead < buf.length then (AccOut.blocked, [])
    else (AccOut.filled buf, [])
  | r :: rest =>
    if bytesRead < buf.length then
      match r with
      | SReadEv.ok bs =>
        let d := bs.take (buf.length - bytesRead)
        accumFrame (writeAt buf bytesRead d) (bytesRead + d.length) rest
      | SReadEv.eof _ => (AccOut.eofRet, rest)
      | SReadEv.err bs =>
        let d := bs.take (buf.length - bytesRead)
        (AccOut.retry (writeAt buf bytesRead d), rest)
    else (AccOut.filled buf, r :: rest)

/-- Outcome of processing one accumulated stream frame.  `fatal`
models a log.Fatalf call, which prints and exits the whole process;
`panicked` models an out-of-range slice index panic. -/
inductive FrameOut where
  | fatal
  | panicked
  | deliver (r : List (List Nat))
deriving DecidableEq

/-- The packet walk of ReadStream (roomba.go lines 278-314): reads a
packet id byte, looks its payload length up in the registry (0 for
unknown ids, as a Go map read defaults), stores the payload at result
index `i` (a panic if `i` is out of range), adds the id and payload
bytes to the running checksum, and stops to read the checksum byte
when exactly one byte remains.  Running out of bytes mid-payload or
before a checksum byte is a log.Fatalf.  The checksum test is
`sum + checksum ≡ 0 (mod 256)`.  `fuel` bounds the recursion; every
step consumes at least one byte of `remaining`, so callers pass
`remaining.length + 1` and the fuel-exhaustion branch is unreachable. -/
def frameWalk : Nat → List Nat → Nat → Nat → List (List Nat) → FrameOut
  | 0, _, _, _, _ => FrameOut.fatal
  | _ + 1, [], _, _, _ => FrameOut.fatal
  | fuel + 1, pid :: rest, i, sum, result =>
    let sum1 := sum + pid
    let btr := (lengthOf pid).getD 0
    if result.length ≤ i then FrameOut.panicked
    else if rest.length < btr then FrameOut.fatal
    else
      let payload := rest.take btr
      let sum2 := sum1 + payload.sum
      let result2 := result.set i payload
      let rest2 := rest.drop btr
      if rest2.length = 1 then
        if (sum2 + rest2.headD 0) % 256 = 0 then FrameOut.deliver result2
        else FrameOut.fatal
      else frameWalk fuel rest2 (i + 1) sum2 result2

/-- Frame processing of ReadStream (roomba.go lines 267-314): checks
the header byte 19, checks the length byte against `byte(len(buf)-3)`,
then walks the packets with the checksum seeded at `byte(len(buf)-3)`.
Each failed check is a log.Fatalf (process abort). -/
def processFrame (ids : List Nat) (buf : List Nat) : FrameOut :=
  match buf with
  | [] => FrameOut.fatal
  | b :: rest =>
    if b = 19 then
      match rest with
      | [] => FrameOut.fatal
      | n :: rest2 =>
        if n = (rest2.length + 255) % 256 then
          frameWalk (rest2.length + 1) rest2 0 ((rest2.length + 255) % 256)
            (List.replicate ids.length [])
        else FrameOut.fatal
    else FrameOut.fatal

/-- Observable events of the streaming reader goroutine, in order:
bytes written to the transport, frames delivered on the output
channel, the channel being closed, the goroutine returning, a
log.Fatalf (process abort), a panic, the goroutine blocking on a read
the script does not answer, and loop-fuel exhaustion. -/
inductive RSEv where
  | wrote (bs : List Nat)
  | delivered (frame : List (List Nat))
  | closedChan
  | returned
  | procFatal
  | procPanic
  | blockedEv
  | fuelOut
deriving DecidableEq

/-- The main loop of ReadStream (roomba.go lines 244-317): each
iteration polls the StreamPaused channel (non-blocking select); on a
pause signal it writes the pause command (opcode 150, payload [0]),
closes the output channel and returns; otherwise it accumulates one
frame (goto Loop on a non-EOF read error re-enters the select and
restarts accumulation at offset zero), processes it and sends the
decoded result to the output channel.  `polls` scripts the result of
each successive pause poll (absent entries mean no signal). -/
def readStreamGo (fuel : Nat) (ids : List Nat) (buf : List Nat)
    (polls : List Bool) (reads : List SReadEv) : List RSEv :=
  match fuel with
  | 0 => [RSEv.fuelOut]
  | fuel + 1 =>
    if polls.headD false then
      [RSEv.wrote (WriteBytes 150 [0]), RSEv.closedChan, RSEv.returned]
    else
      match accumFrame buf 0 reads with
      | (AccOut.filled buf2, reads') =>
        match processFrame ids buf2 with
        | FrameOut.fatal => [RSEv.procFatal]
        | FrameOut.panicked => [RSEv.procPanic]
        | FrameOut.deliver r => RSEv.delivered r :: readStreamGo fuel ids buf2 polls.tail reads'
      | (AccOut.eofRet, _) => [RSEv.returned]
      | (AccOut.retry buf2, reads') => readStreamGo fuel ids buf2 polls.tail reads'
      | (AccOut.blocked, _) => [RSEv.blockedEv]

/-- The data-length preamble of ReadStream (roomba.go lines 231-239):
sums the registered lengths of the requested codes in a byte variable
(mod 256); an unregistered code makes the goroutine log and return. -/
def streamDataLength : List Nat → Option Nat
  | [] => some 0
  | id :: rest =>
    match lengthOf id with
    | none => none
    | some l => (streamDataLength rest).map (fun s => (s + l) % 256)

/-- ReadStream (roomba.go lines 230-318): on an unregistered code the
goroutine returns at once (without closing the output channel);
otherwise it allocates the frame buffer of byte-sized length
`dataLength + byte(len(packetIds)) + 3` and runs the main loop. -/
def ReadStreamModel (fuel : Nat) (ids : List Nat) (polls : List Bool)
    (reads : List SReadEv) : List RSEv :=
  match streamDataLength ids with
  | none => [RSEv.returned]
  | some dl =>
    readStreamGo fuel ids (List.replicate ((dl + ids.length % 256 + 3) % 256) 0) polls reads

/-- The bytes Stream (roomba.go lines 325-339) writes to start the
stream: opcode 148, then the count byte, then one byte per requested
code — with no registry validation. -/
def StreamModel (ids : List Nat) : List Nat :=
  WriteBytes 148 (ids.length % 256 :: ids.map (fun i => i % 256))

/-- Modelled from the spec: the accumulation discipline the spec
prescribes for a non-EOF read error — "retry the current frame's read
boundary without corrupting already-accumulated bytes (a genuine
retry, not a reset)" — i.e. accumulation continues at the current
offset.  Used only to compare against the source's behaviour. -/
def accumFrameSpec (buf : List Nat) (bytesRead : Nat) : List SReadEv → AccOut × List SReadEv
  | [] =>
    if bytesRead < buf.length then (AccOut.blocked, [])
    else (AccOut.filled buf, [])
  | r :: rest =>
    if bytesRead < buf.length then
      match r with
      | SReadEv.ok bs =>
        let d := bs.take (buf.length - bytesRead)
        accumFrameSpec (writeAt buf bytesRead d) (bytesRead + d.length) rest
      | SReadEv.eof _ => (AccOut.eofRet, rest)
      | SReadEv.err bs =>
        let d := bs.take (buf.length - bytesRead)
        accumFrameSpec (writeAt buf bytesRead d) (bytesRead + d.length) rest
    else (AccOut.filled buf, r :: rest)

/-- Modelled from the spec: the streaming loop with the spec's
resume-at-offset retry discipline in place of the source's
restart-from-zero goto.  Used only to compare against the source. -/
def readStreamSpec (fuel : Nat) (ids : List Nat) (buf : List Nat)
    (polls : List Bool) (reads : List SReadEv) : List RSEv :=
  match fuel with
  | 0 => [RSEv.fuelOut]
  | fuel + 1 =>
    if polls.headD false then
      [RSEv.wrote (WriteBytes 150 [0]), RSEv.closedChan, RSEv.returned]
    else
      match accumFrameSpec buf 0 reads with
      | (AccOut.filled buf2, reads') =>
        match processFrame ids buf2 with
        | FrameOut.fatal => [RSEv.procFatal]
        | FrameOut.panicked => [RSEv.procPanic]
        | FrameOut.deliver r => RSEv.delivered r :: readStreamSpec fuel ids buf2 polls.tail reads'
      | (AccOut.eofRet, _) => [RSEv.returned]
      | (AccOut.retry buf2, reads') => readStreamSpec fuel ids buf2 polls.tail reads'
      | (AccOut.blocked, _) => [RSEv.blockedEv]

/-- The wire body of a stream frame between the length byte and the
checksum byte: the packet id bytes interleaved with their payloads. -/
def frameBody : List Nat → List (List Nat) → List Nat
  | id :: ids, p :: ps => id :: (p ++ frameBody ids ps)
  | _, _ => []

/-- Frame well-formedness: the payload lists are positionally aligned
with the packet ids, each with exactly its registered length. -/
def alignedB : List Nat → List (List Nat) → Bool
  | [], [] => true
  | id :: ids, p :: ps => (lengthOf id == some p.length) && alignedB ids ps
  | _, _ => false

/-- Folding Pack's buffer-append step over a list concatenates the
per-value encodings onto the accumulator. -/
theorem pack_foldl (data : List PackVal) : ∀ acc : List Nat,
    data.foldl (fun acc v => acc ++ packBytes v) acc = acc ++ (data.map packBytes).flatten := by
  induction data with
  | nil => intro acc; simp
  | cons v vs ih => intro acc; simp [ih, List.append_assoc]

/-- A successful association-list lookup comes from an entry of the list. -/
theorem lookupLen_mem : ∀ (l : List (Nat × Nat)) (c v : Nat),
    lookupLen l c = some v → (c, v) ∈ l := by
  intro l
  induction l with
  | nil => intro c v h; simp [lookupLen] at h
  | cons kv rest ih =>
    intro c v h
    obtain ⟨k, w⟩ := kv
    by_cases hc : c = k
    · subst hc
      simp [lookupLen] at h
      subst h
      exact List.mem_cons_self _ _
    · simp [lookupLen, hc] at h
      exact List.mem_cons_of_mem _ (ih c v h)

/-- Claim C1.  The claim asserts that Sensors accumulates the first
lengthOf(code) transport bytes in delivery order for any
fragmentation.  The source's loop addresses the destination view
`result[n:]` with `n` the size of the previous read, not a cumulative
offset, so with the 6-byte packet 2 delivered as six 1-byte reads the
bytes land at offsets 0,1,1,1,1,1: the result keeps only the first and
the last delivered byte and leaves offsets 2-5 zero.  With at most two
fragments the previous read size coincides with the cumulative offset
and the result is correct, which is why the spec's own 2-fragment test
passes. -/
theorem c1_theorem :
    SensorsModel 2 true [RRead.ok [1], RRead.ok [2], RRead.ok [3],
        RRead.ok [4], RRead.ok [5], RRead.ok [6]] = SensorsOut.ok [1, 6, 0, 0, 0, 0]
    ∧ SensorsOut.ok [1, 6, 0, 0, 0, 0] ≠ SensorsOut.ok [1, 2, 3, 4, 5, 6]
    ∧ SensorsModel 2 true [RRead.ok [1, 2, 3], RRead.ok [4, 5, 6]]
        = SensorsOut.ok [1, 2, 3, 4, 5, 6] := by
  refine ⟨by decide, by decide, by decide⟩

/-- Claim C2, counterexample.  A frame whose checksum is wrong
(19, 2, 7, 5, 0 sums to 14 mod 256) makes the reader call log.Fatalf,
which aborts the host process: the loop's events are exactly a
process-fatal stop, and the output channel is never closed, contrary
to the claimed close-with-error session termination. -/
theorem c2_counterexample :
    readStreamGo 1 [7] (List.replicate 5 0) [false] [SReadEv.ok [19, 2, 7, 5, 0]]
      = [RSEv.procFatal]
    ∧ RSEv.closedChan ∉ readStreamGo 1 [7] (List.replicate 5 0) [false]
        [SReadEv.ok [19, 2, 7, 5, 0]] := by
  refine ⟨by decide, by decide⟩

/-- Claim C2, amended.  Whenever a fully accumulated frame fails any
integrity check (header, length byte, or checksum — every
FrameOut.fatal case), the streaming loop ends in a process abort via
log.Fatalf: no frame is delivered, the output channel is not closed,
and no error value reaches the consumer. -/
theorem c2_theorem (fuel : Nat) (ids buf : List Nat) (polls : List Bool)
    (reads reads' : List SReadEv) (buf2 : List Nat)
    (h1 : accumFrame buf 0 reads = (AccOut.filled buf2, reads'))
    (h2 : processFrame ids buf2 = FrameOut.fatal) :
    readStreamGo (fuel + 1) ids buf (false :: polls) reads = [RSEv.procFatal] := by
  simp [readStreamGo, h1, h2]

/-- Claim C2, witness for the amended theorem at the bad-checksum
frame 19, 2, 7, 5, 0 requested for sensor code 7. -/
theorem c2_witness :
    (accumFrame (List.replicate 5 0) 0 [SReadEv.ok [19, 2, 7, 5, 0]]
        = (AccOut.filled [19, 2, 7, 5, 0], [])
      ∧ processFrame [7] [19, 2, 7, 5, 0] = FrameOut.fatal)
    ∧ readStreamGo 1 [7] (List.replicate 5 0) [false] [SReadEv.ok [19, 2, 7, 5, 0]]
        = [RSEv.procFatal] :=
  ⟨⟨by decide, by decide⟩,
   c2_theorem 0 [7] (List.replicate 5 0) [] [SReadEv.ok [19, 2, 7, 5, 0]] []
     [19, 2, 7, 5, 0] (by decide) (by decide)⟩

/-- Claim C3, counterexample.  The claim asserts that after a non-EOF
read error the frame accumulation resumes at the current offset with
the accumulated bytes preserved (readStreamSpec).  On the script where
the transport first delivers 2 bytes of a frame with a non-EOF error
and then the full 5-byte frame, the source's loop (readStreamGo)
restarts from offset zero and delivers the frame decoded from the
post-error bytes alone, while the resume discipline would prepend the
two preserved bytes and fail; the two behaviours differ. -/
theorem c3_counterexample :
    readStreamGo 3 [7] (List.replicate 5 0) [false, false]
        [SReadEv.err [19, 2], SReadEv.ok [19, 2, 7, 9, 238]]
      ≠ readStreamSpec 3 [7] (List.replicate 5 0) [false, false]
        [SReadEv.err [19, 2], SReadEv.ok [19, 2, 7, 9, 238]] := by
  decide

/-- Claim C3, amended.  A transport read that fails with a non-EOF
error makes the loop jump back to the select (goto Loop): the bytes
the errored read delivered are written into the frame buffer, but the
accumulation counter restarts at offset zero, so the previously
accumulated bytes are abandoned, not resumed — the next iteration is
exactly a fresh loop entry on the remaining script. -/
theorem c3_theorem (fuel : Nat) (ids buf : List Nat) (polls : List Bool)
    (d : List Nat) (reads : List SReadEv) (h : 0 < buf.length) :
    readStreamGo (fuel + 1) ids buf (false :: polls) (SReadEv.err d :: reads)
      = readStreamGo fuel ids (writeAt buf 0 (d.take buf.length)) polls reads := by
  simp [readStreamGo, accumFrame, h]

/-- Claim C3, witness for the amended theorem on the counterexample
script. -/
theorem c3_witness :
    0 < (List.replicate 5 (0 : Nat)).length
    ∧ readStreamGo (2 + 1) [7] (List.replicate 5 0) (false :: [false])
        (SReadEv.err [19, 2] :: [SReadEv.ok [19, 2, 7, 9, 238]])
      = readStreamGo 2 [7] (writeAt (List.replicate 5 0) 0
          (([19, 2] : List Nat).take (List.replicate 5 (0 : Nat)).length)) [false]
        [SReadEv.ok [19, 2, 7, 9, 238]] :=
  ⟨by decide,
   c3_theorem 2 [7] (List.replicate 5 0) [false] [19, 2]
     [SReadEv.ok [19, 2, 7, 9, 238]] (by decide)⟩

/-- Claim C5.  Drive's radius validation rejects everything outside
[-2000, 2000] with no exception for the documented "straight" sentinel
32767 (hex 7FFF): Drive(200, 32767) fails with the invalid-radius
error and writes nothing, although the function's own documentation
lists 32767 as the protocol-legal special case for driving straight.
The turn-in-place sentinels ±1 lie inside the numeric range and do
pass through as encoded drive commands. -/
theorem c5_theorem :
    DriveModel 200 32767 = CmdOut.invalidRadius
    ∧ DriveModel 200 32767 ≠ CmdOut.wrote (WriteBytes 137 (Pack [PackVal.i16 200, PackVal.i16 32767]))
    ∧ DriveModel 200 (-1) = CmdOut.wrote [137, 0, 200, 255, 255]
    ∧ DriveModel 200 1 = CmdOut.wrote [137, 0, 200, 0, 1] := by
  refine ⟨by decide, by decide, by decide, by decide⟩

/-- Claim C6, counterexample.  The registry contains the group-packet
code 0 with registered length 26, which is neither 1 nor 2. -/
theorem c6_counterexample :
    lengthOf 0 = some 26 ∧ ¬((26 : Nat) = 1 ∨ (26 : Nat) = 2) := by
  refine ⟨by decide, by decide⟩

/-- Claim C6, amended.  Every individual sensor code (code 7 and
above) present in the registry has registered length 1 or 2; the
registry additionally contains the group-packet codes 0-6 with lengths
26, 10, 6, 10, 14, 12 and 52. -/
theorem c6_theorem :
    (∀ c l : Nat, 7 ≤ c → lengthOf c = some l → l = 1 ∨ l = 2)
    ∧ lengthOf 0 = some 26 ∧ lengthOf 1 = some 10 ∧ lengthOf 2 = some 6
    ∧ lengthOf 3 = some 10 ∧ lengthOf 4 = some 14 ∧ lengthOf 5 = some 12
    ∧ lengthOf 6 = some 52 := by
  refine ⟨?_, by decide, by decide, by decide, by decide, by decide, by decide⟩
  intro c l h7 hl
  have hm := lookupLen_mem _ _ _ hl
  have hall : ∀ p ∈ SENSOR_PACKET_LENGTH, 7 ≤ p.1 → (p.2 = 1 ∨ p.2 = 2) := by decide
  exact hall (c, l) hm h7

/-- Claim C6, witness for the amended theorem at registered code 19
(sensor distance, length 2). -/
theorem c6_witness :
    ((7 : Nat) ≤ 19 ∧ lengthOf 19 = some 2) ∧ ((2 : Nat) = 1 ∨ (2 : Nat) = 2) :=
  ⟨⟨by decide, by decide⟩, c6_theorem.1 19 2 (by decide) (by decide)⟩

/-- Claim C8.  Pack concatenates the big-endian byte encodings of its
typed inputs, with no length prefix and no padding, and in particular
Pack [int16 -500, int16 2000] is the 4-byte sequence FE 0C 07 D0. -/
theorem c8_theorem :
    (∀ data : List PackVal, Pack data = (data.map packBytes).flatten)
    ∧ Pack [PackVal.i16 (-500), PackVal.i16 2000] = [0xFE, 0x0C, 0x07, 0xD0] := by
  refine ⟨?_, by decide⟩
  intro data
  simpa [Pack] using pack_foldl data []

/-- Claim C10.  Sensors and QueryList discard the error result of the
request-command write: their outcome is a function of the packet ids
and the read script alone, independent of whether the write succeeded,
and with a failed write they still complete the read phase normally. -/
theorem c10_theorem :
    (∀ (pid : Nat) (w : Bool) (reads : List RRead),
        SensorsModel pid w reads = SensorsModel pid true reads)
    ∧ (∀ (ids : List Nat) (w : Bool) (reads : List RRead),
        QueryListModel ids w reads = QueryListModel ids true reads)
    ∧ SensorsModel 8 false [RRead.ok [5]] = SensorsOut.ok [5]
    ∧ QueryListModel [8] false [RRead.ok [5]] = QLOut.ok [[5]] := by
  exact ⟨fun _ _ _ => rfl, fun _ _ _ => rfl, by decide, by decide⟩

/-- Claim C7.  A pause requested while a frame is being read is
observed only at the next frame boundary: the loop polls the pause
channel once per iteration, so with no signal at the frame's start and
the signal present at the next poll, the in-flight frame is fully
accumulated, processed and delivered first; then the reader writes the
pause command bytes 150, 0 (hex 96 00) exactly once, closes the output
channel and returns, delivering nothing further. -/
theorem c7_theorem (fuel : Nat) (ids buf : List Nat) (polls : List Bool)
    (reads reads' : List SReadEv) (buf2 : List Nat) (r : List (List Nat))
    (h1 : accumFrame buf 0 reads = (AccOut.filled buf2, reads'))
    (h2 : processFrame ids buf2 = FrameOut.deliver r) :
    readStreamGo (fuel + 2) ids buf (false :: true :: polls) reads
      = [RSEv.delivered r, RSEv.wrote (WriteBytes 150 [0]), RSEv.closedChan, RSEv.returned] := by
  simp [readStreamGo, h1, h2]

/-- Claim C7, witness: the valid frame 19, 2, 7, 9, 238 for sensor
code 7 is delivered before a pause signalled at the second poll takes
effect. -/
theorem c7_witness :
    (accumFrame (List.replicate 5 0) 0 [SReadEv.ok [19, 2, 7, 9, 238]]
        = (AccOut.filled [19, 2, 7, 9, 238], [])
      ∧ processFrame [7] [19, 2, 7, 9, 238] = FrameOut.deliver [[9]])
    ∧ readStreamGo 2 [7] (List.replicate 5 0) [false, true] [SReadEv.ok [19, 2, 7, 9, 238]]
      = [RSEv.delivered [[9]], RSEv.wrote (WriteBytes 150 [0]), RSEv.closedChan, RSEv.returned] :=
  ⟨⟨by decide, by decide⟩,
   c7_theorem 0 [7] (List.replicate 5 0) [] [SReadEv.ok [19, 2, 7, 9, 238]] []
     [19, 2, 7, 9, 238] [[9]] (by decide) (by decide)⟩

/-- Taking one element past a set index splits the list there. -/
theorem set_take_succ {α : Type} : ∀ (l : List α) (i : Nat) (a : α), i < l.length →
    (l.set i a).take (i + 1) = l.take i ++ [a] := by
  intro l
  induction l with
  | nil => intro i a h; simp at h
  | cons x xs ih =>
    intro i a h
    cases i with
    | zero => simp
    | succ j =>
      have h' : j < xs.length := by simpa using h
      simp [ih j a h']

/-- Setting the last index of a list replaces its final element. -/
theorem set_eq_take_append {α : Type} (l : List α) (i : Nat) (a : α)
    (h : l.length = i + 1) : l.set i a = l.take i ++ [a] := by
  have h2 : (l.set i a).length = i + 1 := by rw [List.length_set, h]
  calc l.set i a = (l.set i a).take (l.set i a).length := (List.take_length (l.set i a)).symm
    _ = (l.set i a).take (i + 1) := by rw [h2]
    _ = l.take i ++ [a] := set_take_succ l i a (by omega)

/-- Aligned payload lists have one payload per packet id. -/
theorem alignedB_length : ∀ (ids : List Nat) (ps : List (List Nat)),
    alignedB ids ps = true → ps.length = ids.length := by
  intro ids
  induction ids with
  | nil =>
    intro ps h
    cases ps with
    | nil => rfl
    | cons p ps => simp [alignedB] at h
  | cons id ids ih =>
    intro ps h
    cases ps with
    | nil => simp [alignedB] at h
    | cons p ps =>
      simp only [alignedB, Bool.and_eq_true] at h
      simp [ih ps h.2]

/-- The frame body has at least one byte (the id) per packet. -/
theorem frameBody_length_ge : ∀ (ids : List Nat) (ps : List (List Nat)),
    alignedB ids ps = true → ids.length ≤ (frameBody ids ps).length := by
  intro ids
  induction ids with
  | nil => intro ps _; simp
  | cons id ids ih =>
    intro ps h
    cases ps with
    | nil => simp [alignedB] at h
    | cons p ps =>
      simp only [alignedB, Bool.and_eq_true] at h
      have := ih ps h.2
      simp [frameBody, List.length_append]
      omega

/-- The packet walk on a well-formed frame body: starting at slot `i`
with enough fuel, it decodes exactly the aligned payloads into the
successive result slots and accepts iff the running sum of the walked
bytes and the checksum byte vanishes mod 256. -/
theorem frameWalk_spec : ∀ (ids : List Nat), ∀ (ps : List (List Nat)) (cs : Nat)
    (fuel i sum : Nat) (result : List (List Nat)),
    alignedB ids ps = true → ids ≠ [] → result.length = i + ids.length →
    ids.length ≤ fuel →
    frameWalk fuel (frameBody ids ps ++ [cs]) i sum result =
      (if (sum + (frameBody ids ps).sum + cs) % 256 = 0
       then FrameOut.deliver (result.take i ++ ps) else FrameOut.fatal) := by
  intro ids
  induction ids with
  | nil => intro ps cs fuel i sum result _ hne; exact absurd rfl hne
  | cons id ids ih =>
    intro ps cs fuel i sum result ha _ hlen hfuel
    cases ps with
    | nil => simp [alignedB] at ha
    | cons p ps' =>
      simp only [alignedB, Bool.and_eq_true, beq_iff_eq] at ha
      obtain ⟨hid, ha'⟩ := ha
      simp only [List.length_cons] at hlen hfuel
      cases fuel with
      | zero => omega
      | succ f =>
        have hbody : frameBody (id :: ids) (p :: ps') ++ [cs]
            = id :: (p ++ (frameBody ids ps' ++ [cs])) := by
          simp [frameBody, List.append_assoc]
        rw [hbody, frameWalk]
        simp only [hid, Option.getD_some]
        rw [if_neg (by omega : ¬ result.length ≤ i)]
        rw [if_neg (by simp only [List.length_append, List.length_cons]; omega :
          ¬ (p ++ (frameBody ids ps' ++ [cs])).length < p.length)]
        rw [List.take_left, List.drop_left]
        cases ids with
        | nil =>
          cases ps' with
          | cons q qs => simp [alignedB] at ha'
          | nil =>
            simp only [frameBody, List.nil_append, List.length_cons, List.length_nil,
              List.headD_cons, if_true]
            simp only [List.length_nil] at hlen
            rw [set_eq_take_append result i p (by omega)]
            refine if_congr ?_ rfl rfl
            simp only [frameBody, List.sum_cons, List.sum_append, List.sum_nil]
            omega
        | cons id2 ids2 =>
          cases ps' with
          | nil => simp [alignedB] at ha'
          | cons p2 ps2 =>
            rw [if_neg (by
              simp only [frameBody, List.length_append, List.length_cons]
              omega :
              ¬ (frameBody (id2 :: ids2) (p2 :: ps2) ++ [cs]).length = 1)]
            rw [ih (p2 :: ps2) cs f (i + 1) (sum + id + p.sum) (result.set i p) ha'
              (by simp)
              (by
                simp only [List.length_set, List.length_cons]
                simp only [List.length_cons] at hlen
                omega)
              (by
                simp only [List.length_cons]
                simp only [List.length_cons] at hfuel
                omega)]
            rw [set_take_succ result i p (by omega)]
            refine if_congr ?_ (by simp) rfl
            simp only [frameBody, List.sum_cons, List.sum_append]
            omega

/-- Claim C4.  For a frame built as header 19, a correct length byte,
a body of registry-aligned (id, payload) entries and a checksum byte,
the streaming reader delivers the decoded payloads (in wire order, one
per requested slot) exactly when the unsigned sum of every byte from
the length byte through the checksum byte is 0 mod 256, and otherwise
stops with the checksum-mismatch fatal error, delivering nothing. -/
theorem c4_theorem (ids : List Nat) (ps : List (List Nat)) (cs : Nat)
    (ha : alignedB ids ps = true) (hne : ids ≠ [])
    (hlen : (frameBody ids ps).length ≤ 255) :
    processFrame ids (19 :: (frameBody ids ps).length :: (frameBody ids ps ++ [cs]))
      = (if ((frameBody ids ps).length + (frameBody ids ps).sum + cs) % 256 = 0
         then FrameOut.deliver ps else FrameOut.fatal) := by
  have hmod : ((frameBody ids ps ++ [cs]).length + 255) % 256 = (frameBody ids ps).length := by
    simp only [List.length_append, List.length_cons, List.length_nil]
    omega
  simp only [processFrame, if_pos rfl, hmod]
  simp only [if_true]
  rw [frameWalk_spec ids ps cs ((frameBody ids ps ++ [cs]).length + 1) 0
    (frameBody ids ps).length (List.replicate ids.length []) ha hne
    (by simp [alignedB_length ids ps ha])
    (by have := frameBody_length_ge ids ps ha; simp [List.length_append]; omega)]
  simp

/-- Claim C4, witness at the single-entry frame 19, 2, 7, 9, 238 for
sensor code 7 (sum 2 + 7 + 9 + 238 = 256 ≡ 0, so it is delivered). -/
theorem c4_witness :
    (alignedB [7] [[9]] = true ∧ [7] ≠ ([] : List Nat)
      ∧ (frameBody [7] [[9]]).length ≤ 255)
    ∧ processFrame [7] (19 :: (frameBody [7] [[9]]).length :: (frameBody [7] [[9]] ++ [238]))
      = (if ((frameBody [7] [[9]]).length + (frameBody [7] [[9]]).sum + 238) % 256 = 0
         then FrameOut.deliver [[9]] else FrameOut.fatal) :=
  ⟨⟨by decide, by decide, by decide⟩, c4_theorem [7] [[9]] 238 (by decide) (by decide) (by decide)⟩

/-- Unfolding lemma: a pause signal at the poll. -/
theorem readStreamGo_pause (fuel : Nat) (ids buf : List Nat) (polls : List Bool)
    (reads : List SReadEv) (hp : polls.headD false = true) :
    readStreamGo (fuel + 1) ids buf polls reads
      = [RSEv.wrote (WriteBytes 150 [0]), RSEv.closedChan, RSEv.returned] := by
  rw [List.headD_eq_head?] at hp
  simp [readStreamGo, hp]

/-- Unfolding lemma: no pause signal, frame filled, frame delivered. -/
theorem readStreamGo_deliver (fuel : Nat) (ids buf : List Nat) (polls : List Bool)
    (reads reads' : List SReadEv) (buf2 : List Nat) (r : List (List Nat))
    (hp : polls.headD false = false)
    (ha : accumFrame buf 0 reads = (AccOut.filled buf2, reads'))
    (hb : processFrame ids buf2 = FrameOut.deliver r) :
    readStreamGo (fuel + 1) ids buf polls reads
      = RSEv.delivered r :: readStreamGo fuel ids buf2 polls.tail reads' := by
  rw [List.headD_eq_head?] at hp
  simp [readStreamGo, hp, ha, hb]

/-- Unfolding lemma: no pause signal, frame filled, fatal processing. -/
theorem readStreamGo_fatal (fuel : Nat) (ids buf : List Nat) (polls : List Bool)
    (reads reads' : List SReadEv) (buf2 : List Nat)
    (hp : polls.headD false = false)
    (ha : accumFrame buf 0 reads = (AccOut.filled buf2, reads'))
    (hb : processFrame ids buf2 = FrameOut.fatal) :
    readStreamGo (fuel + 1) ids buf polls reads = [RSEv.procFatal] := by
  rw [List.headD_eq_head?] at hp
  simp [readStreamGo, hp, ha, hb]

/-- Unfolding lemma: no pause signal, frame filled, panicking walk. -/
theorem readStreamGo_panic (fuel : Nat) (ids buf : List Nat) (polls : List Bool)
    (reads reads' : List SReadEv) (buf2 : List Nat)
    (hp : polls.headD false = false)
    (ha : accumFrame buf 0 reads = (AccOut.filled buf2, reads'))
    (hb : processFrame ids buf2 = FrameOut.panicked) :
    readStreamGo (fuel + 1) ids buf polls reads = [RSEv.procPanic] := by
  rw [List.headD_eq_head?] at hp
  simp [readStreamGo, hp, ha, hb]

/-- Unfolding lemma: no pause signal, EOF during accumulation. -/
theorem readStreamGo_eof (fuel : Nat) (ids buf : List Nat) (polls : List Bool)
    (reads reads' : List SReadEv)
    (hp : polls.headD false = false)
    (ha : accumFrame buf 0 reads = (AccOut.eofRet, reads')) :
    readStreamGo (fuel + 1) ids buf polls reads = [RSEv.returned] := by
  rw [List.headD_eq_head?] at hp
  simp [readStreamGo, hp, ha]

/-- Unfolding lemma: no pause signal, non-EOF error during
accumulation (goto Loop restart). -/
theorem readStreamGo_retry (fuel : Nat) (ids buf : List Nat) (polls : List Bool)
    (reads reads' : List SReadEv) (buf2 : List Nat)
    (hp : polls.headD false = false)
    (ha : accumFrame buf 0 reads = (AccOut.retry buf2, reads')) :
    readStreamGo (fuel + 1) ids buf polls reads
      = readStreamGo fuel ids buf2 polls.tail reads' := by
  rw [List.headD_eq_head?] at hp
  simp [readStreamGo, hp, ha]

/-- Unfolding lemma: no pause signal, read script exhausted. -/
theorem readStreamGo_blocked (fuel : Nat) (ids buf : List Nat) (polls : List Bool)
    (reads reads' : List SReadEv)
    (hp : polls.headD false = false)
    (ha : accumFrame buf 0 reads = (AccOut.blocked, reads')) :
    readStreamGo (fuel + 1) ids buf polls reads = [RSEv.blockedEv] := by
  rw [List.headD_eq_head?] at hp
  simp [readStreamGo, hp, ha]

/-- Claim C9.  The output channel is closed only on the pause path:
with an unregistered code in the list, Stream still writes the full
start command (opcode, count and every code byte, the unknown one
included) and the reader goroutine returns at once without closing the
channel; an end-of-stream read likewise makes the loop return without
closing; and any occurrence of a channel close in the loop's events is
accompanied by the pause-command write — so a consumer of a session
that ends any other way is never signalled termination. -/
theorem c9_theorem :
    (∀ (ids : List Nat) (fuel : Nat) (polls : List Bool) (reads : List SReadEv),
        streamDataLength ids = none →
        StreamModel ids = 148 :: ids.length % 256 :: ids.map (fun i => i % 256)
          ∧ ReadStreamModel fuel ids polls reads = [RSEv.returned])
    ∧ (∀ (fuel : Nat) (ids buf : List Nat) (polls : List Bool) (reads rest : List SReadEv),
        accumFrame buf 0 reads = (AccOut.eofRet, rest) →
        readStreamGo (fuel + 1) ids buf (false :: polls) reads = [RSEv.returned])
    ∧ (∀ (fuel : Nat) (ids buf : List Nat) (polls : List Bool) (reads : List SReadEv),
        RSEv.closedChan ∈ readStreamGo fuel ids buf polls reads →
        RSEv.wrote (WriteBytes 150 [0]) ∈ readStreamGo fuel ids buf polls reads) := by
  refine ⟨?_, ?_, ?_⟩
  · intro ids fuel polls reads h
    exact ⟨by simp [StreamModel, WriteBytes], by simp [ReadStreamModel, h]⟩
  · intro fuel ids buf polls reads rest h
    simp [readStreamGo, h]
  · intro fuel
    induction fuel with
    | zero =>
      intro ids buf polls reads h
      simp [readStreamGo] at h
    | succ f ih =>
      intro ids buf polls reads h
      cases hp : polls.headD false with
      | true =>
        rw [readStreamGo_pause f ids buf polls reads hp]
        simp
      | false =>
        rcases ha : accumFrame buf 0 reads with ⟨acc, rds⟩
        cases acc with
        | filled buf2 =>
          cases hb : processFrame ids buf2 with
          | fatal =>
            rw [readStreamGo_fatal f ids buf polls reads rds buf2 hp ha hb] at h
            simp at h
          | panicked =>
            rw [readStreamGo_panic f ids buf polls reads rds buf2 hp ha hb] at h
            simp at h
          | deliver r =>
            rw [readStreamGo_deliver f ids buf polls reads rds buf2 r hp ha hb] at h ⊢
            simp only [List.mem_cons] at h ⊢
            rcases h with h | h
            · exact absurd h (by simp)
            · exact Or.inr (ih ids buf2 polls.tail rds h)
        | eofRet =>
          rw [readStreamGo_eof f ids buf polls reads rds hp ha] at h
          simp at h
        | retry buf2 =>
          rw [readStreamGo_retry f ids buf polls reads rds buf2 hp ha] at h ⊢
          exact ih ids buf2 polls.tail rds h
        | blocked =>
          rw [readStreamGo_blocked f ids buf polls reads rds hp ha] at h
          simp at h

/-- Claim C9, witness: an unregistered code 255 is written in the
start command while the reader returns without closing; an EOF read
returns without closing; and on a pause poll the close is accompanied
by the pause-command write. -/
theorem c9_witness :
    (streamDataLength [255] = none
      ∧ StreamModel [255] = 148 :: [255].length % 256 :: [255].map (fun i => i % 256)
      ∧ ReadStreamModel 1 [255] [] [] = [RSEv.returned])
    ∧ readStreamGo 1 [7] [0] [false] [SReadEv.eof []] = [RSEv.returned]
    ∧ RSEv.wrote (WriteBytes 150 [0]) ∈ readStreamGo 1 [] [] [true] [] :=
  ⟨⟨by decide, (c9_theorem.1 [255] 1 [] [] (by decide)).1,
    (c9_theorem.1 [255] 1 [] [] (by decide)).2⟩,
   c9_theorem.2.1 0 [7] [0] [] [SReadEv.eof []] [] (by decide),
   c9_theorem.2.2 1 [] [] [true] [] (by decide)⟩

end GoRoomba
